import Mathlib

set_option autoImplicit false

namespace Alphabot

/-! Shallow embedding of the Alphabot dispatch core.

`checkPermission`, `checkBanStatus`, `getUserPermissions`, `findCommand`,
`handleCommand`, `handleReply`, `handleReaction`, `handleMessage` and
`handleEvent` are translated from the message-dispatch handler module;
`getUserPermissionsFromDB` from the database handler module; the
`CommandService` registration/execution/cooldown functions from the
command-service module.  JavaScript `Map`s are modelled as association
lists, `undefined`/absent fields as `Option`, and JS truthiness is made
explicit at each use site. -/

/-- Source: `x === true` on a possibly absent boolean field. -/
def isTrueOpt (x : Option Bool) : Bool :=
  match x with
  | some true => true
  | _ => false

/-- JS `Map.set`: replace the binding if the key is present, else append. -/
def alSet {α β : Type} [BEq α] (m : List (α × β)) (k : α) (v : β) : List (α × β) :=
  match m with
  | [] => [(k, v)]
  | (k', v') :: rest => if k' == k then (k, v) :: rest else (k', v') :: alSet rest k v

/-- JS `Map.delete`. -/
def alDelete {α β : Type} [BEq α] (m : List (α × β)) (k : α) : List (α × β) :=
  match m with
  | [] => []
  | (k', v') :: rest => if k' == k then rest else (k', v') :: alDelete rest k

/-- Source: `list?.includes(x) || false` on a possibly absent list. -/
def memberOf (l : Option (List String)) (x : String) : Bool :=
  match l with
  | some xs => xs.contains x
  | none => false

/-! ### Permission checking (`checkPermission`) -/

/-- The `permissionMap` literal inside `checkPermission`: required level →
allowed tag list; `permissionMap[requiredLevel] || []` for other levels. -/
def permissionMap (lvl : Int) : List String :=
  if lvl = 0 then ["user"]
  else if lvl = 1 then ["user", "mod"]
  else if lvl = 2 then ["user", "mod", "admin", "thread_admin"]
  else if lvl = 3 then ["user", "mod", "admin", "thread_admin", "supper_admin"]
  else []

/-- Source: `checkPermission(permissions, userPermissions)` from the dispatch module:
returns false when either list is empty, else scans the required levels and
returns true on the first whose allowed tags meet the user's tags. -/
def checkPermission (permissions : List Int) (userPermissions : List String) : Bool :=
  if permissions.isEmpty || userPermissions.isEmpty then false
  else permissions.any fun lvl =>
    (permissionMap lvl).any fun perm => userPermissions.contains perm


/-! ### Executable models of the JS string primitives used by the dispatcher.
Implemented over `String.data` so that concrete runs reduce in the kernel. -/

/-- JS `String.prototype.trim`. -/
def jsTrim (s : String) : String :=
  ⟨((s.data.dropWhile Char.isWhitespace).reverse.dropWhile Char.isWhitespace).reverse⟩

/-- JS `String.prototype.toLowerCase` (ASCII-faithful). -/
def jsToLower (s : String) : String :=
  ⟨s.data.map Char.toLower⟩

/-- JS `String.prototype.startsWith`. -/
def jsStartsWith (s pre : String) : Bool :=
  pre.data.isPrefixOf s.data

/-- JS `String.prototype.slice(n)` for `0 ≤ n`. -/
def jsDrop (s : String) (n : Nat) : String :=
  ⟨s.data.drop n⟩

/-- JS `String.prototype.length` (ASCII-faithful). -/
def jsLength (s : String) : Nat :=
  s.data.length

/-- Maximal runs of non-whitespace characters. -/
def splitWsAux (c : Char) (acc : List (List Char)) : List (List Char) :=
  if c.isWhitespace then [] :: acc
  else
    match acc with
    | [] => [[c]]
    | t :: rest => (c :: t) :: rest

/-- JS `str.split(/\s+/)` restricted to trimmed strings: the maximal
non-whitespace runs, or `[""]` when the string is empty. -/
def jsSplitWs (s : String) : List String :=
  if s.data = [] then [""]
  else ((s.data.foldr splitWsAux []).filter (· ≠ [])).map fun cs => ⟨cs⟩


/-! ### Data model: thread/user records and the global config -/

/-- A member entry inside `thread.info.members`. -/
structure Member where
  userID : String
  banned : Option Bool := none
deriving DecidableEq

/-- The `thread.info` sub-object. -/
structure ThreadInfo where
  members : Option (List Member) := none
  adminIDs : Option (List String) := none
deriving DecidableEq

/-- The `thread.data` sub-object (per-thread settings). -/
structure ThreadSettings where
  prefixStr : Option String := none
  nsfw : Option Bool := none
  language : Option String := none
deriving DecidableEq

/-- A persisted thread record, as read by the dispatcher:
`banned`, `info.adminIDs`, `info.members`, `data.*` and the per-user
permission-override map `permissions`. -/
structure ThreadRecord where
  banned : Option Bool := none
  info : Option ThreadInfo := none
  data : Option ThreadSettings := none
  permissions : List (String × List String) := []
deriving DecidableEq

/-- A persisted user record: `banned` and the global `permissions` field. -/
structure UserRecord where
  banned : Option Bool := none
  permissions : Option (List String) := none
deriving DecidableEq

/-- The fields of `config.main.json` the dispatcher reads. -/
structure Config where
  ADMINS : Option (List String) := none
  MODERATORS : Option (List String) := none
  ABSOLUTES : Option (List String) := none
  PREFIX : Option String := none
  LANGUAGE : Option String := none
deriving DecidableEq

/-- The `data` argument of `checkBanStatus`: the thread and user records
fetched for the event (`{}` when absent, modelled as `none`). -/
structure BanData where
  user : Option UserRecord := none
  thread : Option ThreadRecord := none
deriving DecidableEq

/-- Source: `checkBanStatus(data, userID)` from the dispatch module: true iff
`data?.user?.banned === true`, or `data?.thread?.banned === true`, or the
`members` entry found for `userID` has `banned === true`. -/
def checkBanStatus (data : BanData) (userID : String) : Bool :=
  isTrueOpt (data.user.bind (·.banned)) ||
  isTrueOpt (data.thread.bind (·.banned)) ||
  isTrueOpt ((((data.thread.bind (·.info)).bind (·.members)).bind
    (fun ms => ms.find? fun e => e.userID == userID)).bind (·.banned))

/-- The world the permission resolver reads: `global.config` (possibly not
yet loaded), the `config.main.json` contents its fallback path reads from
disk, and the thread/user stores. -/
structure World where
  config : Option Config := none
  fileConfig : Option Config := none
  threads : List (String × ThreadRecord) := []
  users : List (String × UserRecord) := []
deriving DecidableEq

/-- Source: `getUserPermissionsFromDB(threadID, userID)` from the database handler:
the stored per-user override in the thread's `permissions` map, else
`['user']`. -/
def getUserPermissionsFromDB (threads : List (String × ThreadRecord))
    (threadID userID : String) : List String :=
  match threads.lookup threadID with
  | some threadData =>
    match threadData.permissions.lookup userID with
    | some ps => ps
    | none => ["user"]
  | none => ["user"]

/-- Source: `getUserPermissions(userID, threadID)` from the dispatch module.
`global.config` falls back to reading `config.main.json`; a failed read
(and any thrown error) yields `['user']`.  Then: global
ADMINS/MODERATORS/ABSOLUTES member → `['admin','supper_admin']`; else a
thread admin → `['thread_admin','admin']`; else a stored thread override
whose first element is not `'user'` → that override; else the user's
stored `permissions` field; else `['user']`. -/
def getUserPermissions (w : World) (userID threadID : String) : List String :=
  match (match w.config with | some c => some c | none => w.fileConfig) with
  | none => ["user"]
  | some config =>
    if memberOf config.ADMINS userID || memberOf config.MODERATORS userID ||
        memberOf config.ABSOLUTES userID then
      ["admin", "supper_admin"]
    else
      let threadResult : Option (List String) :=
        if threadID = "" then none
        else
          match w.threads.lookup threadID with
          | none => none
          | some threadData =>
            if memberOf (threadData.info.bind (·.adminIDs)) userID then
              some ["thread_admin", "admin"]
            else
              let permissions := getUserPermissionsFromDB w.threads threadID userID
              if 0 < permissions.length && permissions.head? != some "user" then
                some permissions
              else none
      match threadResult with
      | some r => r
      | none =>
        match (w.users.lookup userID).bind (·.permissions) with
        | some ps => ps
        | none => ["user"]

/-! ### Plugin registry lookup (`findCommand`) -/

/-- A command's config entry in `global.plugins.commandsConfig`. -/
structure CommandInfo where
  permissions : Option (List Int) := none
  cooldown : Option Nat := none
  nsfw : Option Bool := none
  isAbsolute : Bool := false
deriving DecidableEq

/-- The `global.plugins` maps the dispatcher reads. -/
structure Plugins where
  commands : List String := []
  commandsConfig : List (String × CommandInfo) := []
  commandsAliases : List (String × List String) := []
  onMessage : List String := []
  events : List String := []
deriving DecidableEq

/-- Source: `findCommand(commandName)`: a registered command name matches itself;
otherwise the first aliases entry containing the name wins. -/
def findCommand (pl : Plugins) (commandName : String) : Option String :=
  if pl.commands.contains commandName then some commandName
  else (pl.commandsAliases.find? fun ca => ca.2.contains commandName).map (·.1)

/-! ### `handleCommand`: the command branch of the dispatcher -/

/-- The global state `handleCommand` reads: loaded config, the thread/user
stores, the plugin registry, `global.client.cooldowns`
(`senderID → (commandName → timestamp)`), and the current `Date.now()`. -/
structure DispatchState where
  cfg : Config
  threads : List (String × ThreadRecord) := []
  users : List (String × UserRecord) := []
  plugins : Plugins := {}
  cooldowns : List (String × List (String × Int)) := []
  now : Int := 0
deriving DecidableEq

/-- A normalized inbound message event. -/
structure CmdEvent where
  threadID : String
  messageID : String
  senderID : String
  body : String := ""
  isGroup : Bool := false
deriving DecidableEq

/-- What the plugin handler does when called: return normally, throw
synchronously, or (being `async`) return a promise that later rejects. -/
inductive HandlerBehavior
  | ok
  | throwSync
  | rejectAsync
deriving DecidableEq

/-- Observable outcome of one `handleCommand` run: which handler was
invoked, which transport sends happened, whether a promise rejection
escaped the `try/catch`, whether the dispatcher itself crashed on a
missing config entry, and the updated cooldown map. -/
structure HCResult where
  invoked : Option String := none
  errorReplySent : Bool := false
  nsfwReplySent : Bool := false
  clockReacted : Bool := false
  unhandledRejection : Bool := false
  crashed : Bool := false
  cooldowns : List (String × List (String × Int)) := []
deriving DecidableEq

/-- Source: `event.isGroup === true ? (await Threads.get(threadID)) || {} : {}`. -/
def threadOf (st : DispatchState) (ev : CmdEvent) : Option ThreadRecord :=
  if ev.isGroup then st.threads.lookup ev.threadID else none

/-- The ban gate of the command branch:
`checkBanStatus({thread, user}, senderID)`. -/
def dispatchBanned (st : DispatchState) (ev : CmdEvent) : Bool :=
  checkBanStatus { user := st.users.lookup ev.senderID, thread := threadOf st ev } ev.senderID

/-- JS `a || b` for strings: `a` unless it is absent or empty. -/
def jsOrStr (a : Option String) (b : String) : String :=
  match a with
  | some s => if s = "" then b else s
  | none => b

/-- Source: `(_thread?.data?.prefix || global.config.PREFIX || "/").trim().toLowerCase()`. -/
def dispatchPfx (st : DispatchState) (ev : CmdEvent) : String :=
  jsToLower (jsTrim (jsOrStr ((threadOf st ev).bind (·.data) |>.bind (·.prefixStr))
    (jsOrStr st.cfg.PREFIX "/")))

/-- Source: `body ? body.trim().split(/\s+/) : []`. -/
def argsOf (body : String) : List String :=
  if body = "" then [] else jsSplitWs (jsTrim body)

/-- Token check plus command resolution: first arg starts with the prefix,
`findCommand(args[0].slice(prefix.length)?.toLowerCase())` hits, and the
result is a registered command (`commands.get(commandName) || null`). -/
def resolvedCommand (st : DispatchState) (ev : CmdEvent) : Option String :=
  match argsOf ev.body with
  | [] => none
  | a0 :: _ =>
    if jsStartsWith a0 (dispatchPfx st ev) then
      match findCommand st.plugins (jsToLower (jsDrop a0 (jsLength (dispatchPfx st ev)))) with
      | some n => if st.plugins.commands.contains n then some n else none
      | none => none
    else none

/-- The `World` view of the dispatch state handed to `getUserPermissions`. -/
def dispatchWorld (st : DispatchState) : World :=
  { config := some st.cfg, fileConfig := none, threads := st.threads, users := st.users }

/-- Source: `await getUserPermissions(senderID, threadID)` as called by `handleCommand`. -/
def dispatchUserPerms (st : DispatchState) (ev : CmdEvent) : List String :=
  getUserPermissions (dispatchWorld st) ev.senderID ev.threadID

/-- Source: `isValidUser = checkPermission(permissions, userPermissions) && checkAbsolute`
with `permissions = commandInfo.permissions || [0]` and
`checkAbsolute = !!commandInfo.isAbsolute ? isAbsoluteUser : true`. -/
def dispatchValidUser (st : DispatchState) (ev : CmdEvent) (ci : CommandInfo) : Bool :=
  checkPermission (ci.permissions.getD [0]) (dispatchUserPerms st ev) &&
  (if ci.isAbsolute then memberOf st.cfg.ABSOLUTES ev.senderID else true)

/-- JS `c || d` on the numeric cooldown field: `0` and absent both give `d`. -/
def jsOrNat (c : Option Nat) (d : Nat) : Nat :=
  match c with
  | some n => if n = 0 then d else n
  | none => d

/-- Source: `isReady = !userCooldown[commandName] ||
Date.now() - userCooldown[commandName] >= (commandInfo.cooldown || 3) * 1000`. -/
def dispatchReady (st : DispatchState) (ev : CmdEvent) (n : String) (ci : CommandInfo) : Bool :=
  match ((st.cooldowns.lookup ev.senderID).getD []).lookup n with
  | none => true
  | some ts => ts == 0 || decide ((jsOrNat ci.cooldown 3 : Int) * 1000 ≤ st.now - ts)

/-- Source: `_thread?.data?.nsfw === true`. -/
def threadNsfwFlag (st : DispatchState) (ev : CmdEvent) : Bool :=
  isTrueOpt ((threadOf st ev).bind (·.data) |>.bind (·.nsfw))

/-- Source: `(isNSFWEnabled && isCommandNSFW) || !isCommandNSFW || event.isGroup === false`. -/
def nsfwGatePass (st : DispatchState) (ev : CmdEvent) (ci : CommandInfo) : Bool :=
  (threadNsfwFlag st ev && isTrueOpt ci.nsfw) || !isTrueOpt ci.nsfw || ev.isGroup == false

/-- The silent outcome: nothing sent, nothing invoked, cooldowns untouched. -/
def noOutput (st : DispatchState) : HCResult :=
  { cooldowns := st.cooldowns }

/-- Source: `userCooldown[commandName] = Date.now(); cooldowns.set(senderID, userCooldown)`. -/
def recordCooldown (st : DispatchState) (ev : CmdEvent) (n : String) :
    List (String × List (String × Int)) :=
  alSet st.cooldowns ev.senderID (alSet ((st.cooldowns.lookup ev.senderID).getD []) n st.now)

/-- Source: `handleCommand(event)` from the dispatch module: ban gate, prefix and
command resolution, permission gate (silent), cooldown gate (clock
reaction), NSFW gate (text reply), then the cooldown is recorded and the
handler is invoked inside `try/catch`.  The `try/catch` wraps a call that
is not awaited, so it only catches synchronous throws; an async handler's
rejection is not converted into the error reply. -/
def handleCommand (st : DispatchState) (ev : CmdEvent) (hb : HandlerBehavior) : HCResult :=
  if dispatchBanned st ev then noOutput st
  else
    match resolvedCommand st ev with
    | none => noOutput st
    | some n =>
      match st.plugins.commandsConfig.lookup n with
      | none => { noOutput st with crashed := true }
      | some ci =>
        if dispatchValidUser st ev ci then
          if dispatchReady st ev n ci then
            if nsfwGatePass st ev ci then
              { invoked := some n,
                errorReplySent := hb == .throwSync,
                unhandledRejection := hb == .rejectAsync,
                cooldowns := recordCooldown st ev n }
            else { noOutput st with nsfwReplySent := true }
          else { noOutput st with clockReacted := true }
        else noOutput st

/-! ### Reply/reaction waiters (`addReplyEvent`, `handleReply`, `handleReaction`) -/

/-- A waiter record stored in `global.client.replies` / `.reactions`
(the `baseInput` merged with the plugin's data; the callback itself is
modelled at invocation time by a `HandlerBehavior`). -/
structure Waiter where
  author : String
  author_only : Bool := true
  name : String := ""
deriving DecidableEq

/-- Source: `data.addReplyEvent(data, standbyTime)` / `data.addReactEvent(...)`:
silently ignores non-object or array inputs and inputs without a callable
callback; otherwise stores the record under `input.messageID`. -/
def addWaiterEvent (waiters : List (String × Waiter)) (isPlainObject callbackCallable : Bool)
    (messageID : String) (w : Waiter) : List (String × Waiter) :=
  if !isPlainObject || !callbackCallable then waiters
  else alSet waiters messageID w

/-- The timer armed by `addReplyEvent`/`addReactEvent` when
`standbyTime > 0`: on expiry the record is deleted if still present. -/
def waiterTTLFire (waiters : List (String × Waiter)) (messageID : String) :
    List (String × Waiter) :=
  alDelete waiters messageID

/-- Observable outcome of one `handleReply`/`handleReaction` run, together
with the waiter map afterwards. -/
structure WaitResult where
  invoked : Bool := false
  errorReplySent : Bool := false
  unhandledRejection : Bool := false
  waiters : List (String × Waiter) := []
deriving DecidableEq

/-- A reply message event (`messageReply` holds the replied-to message ID). -/
structure ReplyEvent where
  threadID : String
  messageID : String
  senderID : String
  messageReply : Option String := none
  isGroup : Bool := false
deriving DecidableEq

/-- Source: `handleReply(event)`: waiter lookup, ban gate, `author_only` gate, then
callback invocation inside `try/catch` (again not awaited).  No branch
deletes the waiter record. -/
def handleReply (threads : List (String × ThreadRecord)) (users : List (String × UserRecord))
    (replies : List (String × Waiter)) (ev : ReplyEvent) (hb : HandlerBehavior) : WaitResult :=
  match ev.messageReply with
  | none => { waiters := replies }
  | some rmid =>
    match replies.lookup rmid with
    | none => { waiters := replies }
    | some eventData =>
      let threadData := if ev.isGroup then threads.lookup ev.threadID else none
      if checkBanStatus { user := users.lookup ev.senderID, thread := threadData } ev.senderID then
        { waiters := replies }
      else if eventData.author_only && eventData.author != ev.senderID then
        { waiters := replies }
      else
        { invoked := true,
          errorReplySent := hb == .throwSync,
          unhandledRejection := hb == .rejectAsync,
          waiters := replies }

/-- A reaction event (`userID` is the reacting user). -/
structure ReactEvent where
  threadID : String
  messageID : String
  senderID : String
  userID : String
deriving DecidableEq

/-- Source: `handleReaction(event)`: same shape as `handleReply`, keyed by the
reacted message's ID and gated on `userID`.  No branch deletes the record. -/
def handleReaction (threads : List (String × ThreadRecord)) (users : List (String × UserRecord))
    (reactions : List (String × Waiter)) (ev : ReactEvent) (hb : HandlerBehavior) : WaitResult :=
  match reactions.lookup ev.messageID with
  | none => { waiters := reactions }
  | some eventData =>
    let threadData :=
      if ev.senderID != ev.threadID && ev.userID != ev.threadID then
        threads.lookup ev.threadID
      else none
    if checkBanStatus { user := users.lookup ev.userID, thread := threadData } ev.userID then
      { waiters := reactions }
    else if eventData.author_only && eventData.author != ev.userID then
      { waiters := reactions }
    else
      { invoked := true,
        errorReplySent := hb == .throwSync,
        unhandledRejection := hb == .rejectAsync,
        waiters := reactions }

/-- Source: `handleMessage(event)`: ban gate, then every registered `onMessage`
handler runs (each in its own `try/catch`).  Returns the handlers invoked. -/
def handleMessage (threads : List (String × ThreadRecord)) (users : List (String × UserRecord))
    (onMessage : List String) (ev : CmdEvent) : List String :=
  let threadData := if ev.isGroup then threads.lookup ev.threadID else none
  if checkBanStatus { user := users.lookup ev.senderID, thread := threadData } ev.senderID then []
  else onMessage

/-! ### `handleEvent`: the thread-log branch -/

/-- A thread-log event. -/
structure LogEvent where
  type : String
  logMessageType : String := ""
  participantIDs : List String := []
deriving DecidableEq

/-- The `logMessageType → plugins.events` key mapping in `handleEvent`. -/
def logEventTarget (t : String) : Option String :=
  if t = "log:subscribe" then some "subcribe"
  else if t = "log:unsubscribe" then some "unsubcribe"
  else if t = "log:user-nickname" then some "user-nickname"
  else if t = "log:thread-call" then some "thread-call"
  else if t = "log:thread-name" || t = "log:thread-color" || t = "log:thread-icon" ||
      t = "log:thread-approval-mode" || t = "log:thread-admins" then some "thread-update"
  else none

/-- Source: `handleEvent(event)`: participant guard, then dispatch by
`logMessageType` to a named event handler (a missing handler throws into
the surrounding `try/catch` and nothing runs).  Returns the handler
invoked.  The function performs no ban check at all. -/
def handleEvent (events : List String) (ev : LogEvent) : Option String :=
  if ev.type ≠ "change_thread_image" && ev.participantIDs.isEmpty then none
  else if ev.type = "event" then
    match logEventTarget ev.logMessageType with
    | some h => if events.contains h then some h else none
    | none => none
  else if ev.type = "change_thread_image" then
    if events.contains "change_thread_image" then some "change_thread_image" else none
  else none

/-! ### `CommandService`: registration, cooldowns and `execute` -/

/-- A command module's `config` object as `CommandService.loadCommand`
sees it after the export-shape adapter has found `config` and a run
function. -/
structure SvcConfig where
  name : String := ""
  aliases : Option (List String) := none
  permissions : Option (List Int) := none
  cooldown : Option Nat := none
  role : Option Int := none
deriving DecidableEq

/-- The service's three registration maps. -/
structure Registry where
  commands : List String := []
  configs : List (String × SvcConfig) := []
  aliases : List (String × String) := []
deriving DecidableEq

/-- JS `!c` on the numeric cooldown field: absent and `0` are falsy. -/
def jsFalsyNat (c : Option Nat) : Bool :=
  match c with
  | none => true
  | some n => n = 0

/-- The normalization block of `loadCommand`:
`if (!config.permissions) config.permissions = [0, 1, 2];
if (!config.cooldown) config.cooldown = 3;
if (!config.aliases) config.aliases = [];`. -/
def normalizeSvcConfig (c : SvcConfig) : SvcConfig :=
  { c with
    permissions := some (c.permissions.getD [0, 1, 2]),
    cooldown := some (jsOrNat c.cooldown 3),
    aliases := some (c.aliases.getD []) }

/-- Source: `Map.set` restricted to the key set of `this.commands`. -/
def insertName (l : List String) (n : String) : List String :=
  if l.contains n then l else l ++ [n]

/-- The registration portion of `CommandService.loadCommand` (after the
module import and export-shape adapter): skip when `config.name` is
falsy, normalize, then unconditionally `commands.set`, `configs.set` and
`aliases.set` for every alias — there is no duplicate check. -/
def loadCommandRegister (r : Registry) (config : SvcConfig) : Registry :=
  if config.name = "" then r
  else
    let cfg := normalizeSvcConfig config
    { commands := insertName r.commands config.name,
      configs := alSet r.configs config.name cfg,
      aliases := (cfg.aliases.getD []).foldl (fun m a => alSet m a config.name) r.aliases }

/-- Source: `CommandService.resolveAlias(nameOrAlias)`: a direct command name wins,
else the alias map, else `null`. -/
def resolveAlias (r : Registry) (nameOrAlias : String) : Option String :=
  if r.commands.contains nameOrAlias then some nameOrAlias
  else r.aliases.lookup nameOrAlias

/-- Source: `CommandService.checkCooldown(commandName, userID, config)` as a ready
predicate: `!config.cooldown || config.cooldown === 0` returns at once
(always ready); otherwise not ready exactly when a stored expiry exists
with `Date.now() < userCooldown` (the method throws then). -/
def svcCheckCooldown (cooldowns : List (String × List (String × Int))) (now : Int)
    (commandName userID : String) (config : SvcConfig) : Bool :=
  if jsFalsyNat config.cooldown then true
  else
    match ((cooldowns.lookup commandName).getD []).lookup userID with
    | some expires => !decide (now < expires)
    | none => true

/-- Source: `CommandService.setCooldown(commandName, userID, cooldownSeconds)`:
no-op for `0`/absent seconds, else stores `Date.now() + seconds * 1000`. -/
def svcSetCooldown (cooldowns : List (String × List (String × Int))) (now : Int)
    (commandName userID : String) (cooldownSeconds : Nat) :
    List (String × List (String × Int)) :=
  if cooldownSeconds = 0 then cooldowns
  else
    alSet cooldowns commandName
      (alSet ((cooldowns.lookup commandName).getD []) userID (now + (cooldownSeconds : Int) * 1000))

/-- Source: `CommandService.checkPermissions(config, context)` as a pass predicate:
`role === 2` demands global `ABSOLUTES` membership; `role === 1` demands
`MODERATORS` or `ABSOLUTES` membership. -/
def svcCheckPermissions (cfgMain : Config) (config : SvcConfig) (senderID : String) : Bool :=
  if config.role == some 2 && !memberOf cfgMain.ABSOLUTES senderID then false
  else if config.role == some 1 then
    memberOf cfgMain.MODERATORS senderID || memberOf cfgMain.ABSOLUTES senderID
  else true

/-- How one `CommandService.execute` call ends. -/
inductive ExecOutcome
  | notFound
  | crashed
  | permissionDenied
  | cooldownActive
  | handlerError
  | success
deriving DecidableEq

/-- Outcome of `execute` plus the cooldown map afterwards. -/
structure ExecResult where
  outcome : ExecOutcome
  cooldowns : List (String × List (String × Int))
deriving DecidableEq

/-- Source: `CommandService.execute(commandName, context)`: resolve the alias,
check permissions, check the cooldown, `await` the run function, and only
after it resolves call `setCooldown` (a throw from any earlier step skips
it). `handlerFails` models the awaited run function throwing/rejecting. -/
def svcExecute (cfgMain : Config) (r : Registry)
    (cooldowns : List (String × List (String × Int))) (now : Int)
    (commandName senderID : String) (handlerFails : Bool) : ExecResult :=
  match resolveAlias r (jsToLower commandName) with
  | none => ⟨.notFound, cooldowns⟩
  | some name =>
    match r.configs.lookup name with
    | none => ⟨.crashed, cooldowns⟩
    | some config =>
      if !svcCheckPermissions cfgMain config senderID then ⟨.permissionDenied, cooldowns⟩
      else if !svcCheckCooldown cooldowns now name senderID config then
        ⟨.cooldownActive, cooldowns⟩
      else if handlerFails then ⟨.handlerError, cooldowns⟩
      else ⟨.success, svcSetCooldown cooldowns now name senderID (jsOrNat config.cooldown 3)⟩

/-! ## Shared helper lemmas -/

theorem contains_iff_mem {α : Type} [BEq α] [LawfulBEq α] {l : List α} {a : α} :
    l.contains a = true ↔ a ∈ l :=
  List.elem_iff

theorem alSet_lookup_self {α β : Type} [BEq α] [LawfulBEq α] (m : List (α × β)) (k : α) (v : β) :
    (alSet m k v).lookup k = some v := by
  induction m with
  | nil =>
    rw [show alSet ([] : List (α × β)) k v = [(k, v)] from rfl, List.lookup_cons,
      show (k == k) = true from beq_self_eq_true k]
  | cons p rest ih =>
    obtain ⟨k', v'⟩ := p
    by_cases h : k' = k
    · subst h
      rw [show alSet ((k', v') :: rest) k' v = (k', v) :: rest from by
          simp [alSet], List.lookup_cons, show (k' == k') = true from beq_self_eq_true k']
    · rw [show alSet ((k', v') :: rest) k v = (k', v') :: alSet rest k v from by
          simp [alSet, h], List.lookup_cons,
        show (k == k') = false from beq_eq_false_iff_ne.mpr (fun hk => h hk.symm)]
      exact ih

theorem lookup_eq_none_of_not_mem {α β : Type} [BEq α] [LawfulBEq α]
    (m : List (α × β)) (k : α) (h : k ∉ m.map Prod.fst) : m.lookup k = none :=
  List.lookup_eq_none_iff.mpr fun _p hp =>
    bne_iff_ne.mpr fun hk => h (hk ▸ List.mem_map_of_mem Prod.fst hp)

theorem alDelete_lookup_self {α β : Type} [BEq α] [LawfulBEq α]
    (m : List (α × β)) (k : α) (hnd : (m.map Prod.fst).Nodup) :
    (alDelete m k).lookup k = none := by
  induction m with
  | nil => rfl
  | cons p rest ih =>
    obtain ⟨k', v'⟩ := p
    simp only [List.map_cons, List.nodup_cons] at hnd
    by_cases h : k' = k
    · subst h
      rw [show alDelete ((k', v') :: rest) k' = rest from by simp [alDelete]]
      exact lookup_eq_none_of_not_mem rest k' hnd.1
    · rw [show alDelete ((k', v') :: rest) k = (k', v') :: alDelete rest k from by
          simp [alDelete, h], List.lookup_cons,
        show (k == k') = false from beq_eq_false_iff_ne.mpr (fun hk => h hk.symm)]
      exact ih hnd.2

/-- Every run of `handleCommand` ends in one of five shapes: silent drop,
crash on a missing config entry, NSFW refusal, clock reaction, or
cooldown-recording handler invocation. -/
theorem handleCommand_cases (st : DispatchState) (ev : CmdEvent) (hb : HandlerBehavior) :
    handleCommand st ev hb = noOutput st ∨
    handleCommand st ev hb = { noOutput st with crashed := true } ∨
    handleCommand st ev hb = { noOutput st with nsfwReplySent := true } ∨
    handleCommand st ev hb = { noOutput st with clockReacted := true } ∨
    ∃ n, resolvedCommand st ev = some n ∧
      handleCommand st ev hb =
        { invoked := some n, errorReplySent := hb == .throwSync,
          unhandledRejection := hb == .rejectAsync, cooldowns := recordCooldown st ev n } := by
  unfold handleCommand
  repeat' split
  all_goals
    first
    | exact Or.inl rfl
    | exact Or.inr (Or.inl rfl)
    | exact Or.inr (Or.inr (Or.inl rfl))
    | exact Or.inr (Or.inr (Or.inr (Or.inl rfl)))
    | · refine Or.inr (Or.inr (Or.inr (Or.inr ⟨_, ?_, rfl⟩)))
        assumption

/-- Every run of `handleReply` either does nothing or invokes the stored
callback; the waiter map is returned unchanged either way. -/
theorem handleReply_cases (threads : List (String × ThreadRecord))
    (users : List (String × UserRecord)) (waiters : List (String × Waiter))
    (ev : ReplyEvent) (hb : HandlerBehavior) :
    handleReply threads users waiters ev hb = { waiters := waiters } ∨
    handleReply threads users waiters ev hb =
      { invoked := true, errorReplySent := hb == .throwSync,
        unhandledRejection := hb == .rejectAsync, waiters := waiters } := by
  unfold handleReply
  dsimp only
  repeat' split
  all_goals first | exact Or.inl rfl | exact Or.inr rfl

/-- Same shape analysis for `handleReaction`. -/
theorem handleReaction_cases (threads : List (String × ThreadRecord))
    (users : List (String × UserRecord)) (waiters : List (String × Waiter))
    (ev : ReactEvent) (hb : HandlerBehavior) :
    handleReaction threads users waiters ev hb = { waiters := waiters } ∨
    handleReaction threads users waiters ev hb =
      { invoked := true, errorReplySent := hb == .throwSync,
        unhandledRejection := hb == .rejectAsync, waiters := waiters } := by
  unfold handleReaction
  dsimp only
  repeat' split
  all_goals first | exact Or.inl rfl | exact Or.inr rfl

/-- The waiter maps survive every `handleReply` run unchanged. -/
theorem handleReply_keeps_waiters (threads : List (String × ThreadRecord))
    (users : List (String × UserRecord)) (waiters : List (String × Waiter))
    (ev : ReplyEvent) (hb : HandlerBehavior) :
    (handleReply threads users waiters ev hb).waiters = waiters := by
  rcases handleReply_cases threads users waiters ev hb with h | h <;> rw [h]

/-- The reaction map survives every `handleReaction` run unchanged. -/
theorem handleReaction_keeps_waiters (threads : List (String × ThreadRecord))
    (users : List (String × UserRecord)) (waiters : List (String × Waiter))
    (ev : ReactEvent) (hb : HandlerBehavior) :
    (handleReaction threads users waiters ev hb).waiters = waiters := by
  rcases handleReaction_cases threads users waiters ev hb with h | h <;> rw [h]

/-! ## Claim C2: the permission check -/

/-- The level → allowed-tag-set mapping exactly as the specification
words it: 0 → {user}, 1 → {user, mod}, 2 → {user, mod, admin,
thread_admin}, 3 → all five tags, anything else → no tags. -/
def specAllowedTags (lvl : Int) : List String :=
  if lvl = 0 then ["user"]
  else if lvl = 1 then ["user", "mod"]
  else if lvl = 2 then ["user", "mod", "admin", "thread_admin"]
  else if lvl = 3 then ["user", "mod", "admin", "thread_admin", "supper_admin"]
  else []

/-- C2: `checkPermission` returns true iff some required level's
allowed-tag-set (per the spec's mapping) intersects the user's tags, and
an empty required-levels list or empty user tag list yields false. -/
theorem claim_C2_permission_check (permissions : List Int) (userPermissions : List String) :
    (checkPermission permissions userPermissions = true ↔
      ∃ lvl ∈ permissions, ∃ tag ∈ specAllowedTags lvl, tag ∈ userPermissions) ∧
    (permissions = [] ∨ userPermissions = [] →
      checkPermission permissions userPermissions = false) := by
  have hmap : ∀ l, specAllowedTags l = permissionMap l := fun _ => rfl
  constructor
  · rcases hp : permissions with _ | ⟨l0, ps⟩
    · simp [checkPermission]
    · rcases hu : userPermissions with _ | ⟨u0, us⟩
      · simp [checkPermission]
      · simp only [checkPermission, List.isEmpty_cons, Bool.or_self, Bool.false_eq_true,
          if_false, List.any_eq_true, hmap]
        constructor
        · rintro ⟨lvl, hlvl, tag, htm, hmem⟩
          exact ⟨lvl, hlvl, tag, htm, contains_iff_mem.mp hmem⟩
        · rintro ⟨lvl, hlvl, tag, htm, hmem⟩
          exact ⟨lvl, hlvl, tag, htm, contains_iff_mem.mpr hmem⟩
  · rintro (h | h) <;> subst h <;> simp [checkPermission]

/-- Witness for C2 at concrete inputs: level 1 with a `mod` tag passes,
and an empty required-levels list fails closed. -/
theorem claim_C2_permission_check_witness :
    checkPermission [1] ["mod"] = true ∧ checkPermission [] ["user"] = false :=
  ⟨(claim_C2_permission_check [1] ["mod"]).1.mpr
      ⟨1, by decide, "mod", by decide, by decide⟩,
    (claim_C2_permission_check [] ["user"]).2 (Or.inl rfl)⟩

/-! ## Claim C4: permission failure is a silent drop -/

/-- C4: when the command resolves but `checkPermission` rejects the
sender, `handleCommand` invokes no handler and produces no user-visible
output at all — no reply, no reaction — and leaves the cooldowns alone. -/
theorem claim_C4_silent_permission_drop (st : DispatchState) (ev : CmdEvent)
    (hb : HandlerBehavior) (n : String) (ci : CommandInfo)
    (hban : dispatchBanned st ev = false)
    (hres : resolvedCommand st ev = some n)
    (hcfg : st.plugins.commandsConfig.lookup n = some ci)
    (hperm : checkPermission (ci.permissions.getD [0]) (dispatchUserPerms st ev) = false) :
    handleCommand st ev hb =
      { invoked := none, errorReplySent := false, nsfwReplySent := false,
        clockReacted := false, unhandledRejection := false, crashed := false,
        cooldowns := st.cooldowns } := by
  simp [handleCommand, hban, hres, hcfg, dispatchValidUser, hperm, noOutput]

/-- Witness for C4: a command whose config demands an empty permission
list is resolved but silently dropped. -/
theorem claim_C4_silent_permission_drop_witness :
    handleCommand
      { cfg := {},
        plugins := { commands := ["ping"], commandsConfig := [("ping", { permissions := some [] })] } }
      { threadID := "t1", messageID := "m1", senderID := "u1", body := "/ping" } .ok =
      { invoked := none, errorReplySent := false, nsfwReplySent := false,
        clockReacted := false, unhandledRejection := false, crashed := false,
        cooldowns := [] } :=
  claim_C4_silent_permission_drop _ _ .ok "ping" { permissions := some [] }
    (by decide) (by decide) (by decide) (by decide)

/-! ## Claim C6: the NSFW gate -/

/-- C6: a resolved NSFW command in a group whose stored nsfw flag is not
true gets the `nsfwNotAllowed` reply and no handler invocation; a
non-NSFW command, an nsfw-enabled thread, or a non-group chat passes the
gate and the handler is invoked. -/
theorem claim_C6_nsfw_gate (st : DispatchState) (ev : CmdEvent)
    (hb : HandlerBehavior) (n : String) (ci : CommandInfo)
    (hban : dispatchBanned st ev = false)
    (hres : resolvedCommand st ev = some n)
    (hcfg : st.plugins.commandsConfig.lookup n = some ci)
    (hvalid : dispatchValidUser st ev ci = true)
    (hready : dispatchReady st ev n ci = true) :
    (isTrueOpt ci.nsfw = true ∧ ev.isGroup = true ∧ threadNsfwFlag st ev = false →
      handleCommand st ev hb = { noOutput st with nsfwReplySent := true }) ∧
    (isTrueOpt ci.nsfw = false ∨ threadNsfwFlag st ev = true ∨ ev.isGroup = false →
      (handleCommand st ev hb).invoked = some n ∧
      (handleCommand st ev hb).nsfwReplySent = false) := by
  constructor
  · rintro ⟨h1, h2, h3⟩
    simp [handleCommand, hban, hres, hcfg, hvalid, hready, nsfwGatePass, h1, h2, h3]
  · intro h
    have hpass : nsfwGatePass st ev ci = true := by
      rcases h with h | h | h <;> simp [nsfwGatePass, h]
    simp [handleCommand, hban, hres, hcfg, hvalid, hready, hpass]

/-- Witness for C6: an NSFW command in a group thread whose record has
`nsfw: false` draws the `nsfwNotAllowed` reply. -/
theorem claim_C6_nsfw_gate_witness :
    handleCommand
      { cfg := {},
        threads := [("t1", { data := some { nsfw := some false } })],
        plugins := { commands := ["lewd"], commandsConfig := [("lewd", { nsfw := some true })] } }
      { threadID := "t1", messageID := "m1", senderID := "u1", body := "/lewd", isGroup := true }
      .ok =
      { noOutput
          { cfg := {},
            threads := [("t1", { data := some { nsfw := some false } })],
            plugins := { commands := ["lewd"], commandsConfig := [("lewd", { nsfw := some true })] } }
        with nsfwReplySent := true } :=
  (claim_C6_nsfw_gate _ _ .ok "lewd" { nsfw := some true }
    (by decide) (by decide) (by decide) (by decide) (by decide)).1 (by decide)

/-! ## Claim C1: waiter consumption -/

/-- C1 counterexample: a reply waiter registered for message `m0` is
matched by a reply event — the callback is invoked — yet the record is
still retrievable afterwards (the lookup does not yield `null`), and a
second matching reply invokes the callback again within the TTL window. -/
theorem claim_C1_counterexample :
    (handleReply [] [] (addWaiterEvent [] true true "m0" { author := "u1", name := "ping" })
        { threadID := "t1", messageID := "m2", senderID := "u1", messageReply := some "m0" }
        .ok).invoked = true ∧
    (handleReply [] [] (addWaiterEvent [] true true "m0" { author := "u1", name := "ping" })
        { threadID := "t1", messageID := "m2", senderID := "u1", messageReply := some "m0" }
        .ok).waiters.lookup "m0" =
      some { author := "u1", name := "ping" } ∧
    (handleReply [] []
        (handleReply [] [] (addWaiterEvent [] true true "m0" { author := "u1", name := "ping" })
          { threadID := "t1", messageID := "m2", senderID := "u1", messageReply := some "m0" }
          .ok).waiters
        { threadID := "t1", messageID := "m3", senderID := "u1", messageReply := some "m0" }
        .ok).invoked = true := by
  decide

/-- C1 amended: a matching reply or reaction invokes the waiter's callback
but never deletes the record — the waiter map is unchanged by every
`handleReply`/`handleReaction` run, so a repeat of the same matching
event invokes the callback again; the record is removed only when the
TTL timer fires (and registration stores it under the message ID). -/
theorem claim_C1_amended_not_single_shot (threads : List (String × ThreadRecord))
    (users : List (String × UserRecord)) (waiters : List (String × Waiter))
    (ev : ReplyEvent) (rev : ReactEvent) (hb : HandlerBehavior) (mid : String) (w : Waiter) :
    (handleReply threads users waiters ev hb).waiters = waiters ∧
    (handleReaction threads users waiters rev hb).waiters = waiters ∧
    (addWaiterEvent waiters true true mid w).lookup mid = some w ∧
    ((waiters.map Prod.fst).Nodup → (waiterTTLFire waiters mid).lookup mid = none) ∧
    ((handleReply threads users waiters ev hb).invoked = true →
      (handleReply threads users (handleReply threads users waiters ev hb).waiters ev
        hb).invoked = true) := by
  refine ⟨handleReply_keeps_waiters threads users waiters ev hb,
    handleReaction_keeps_waiters threads users waiters rev hb, ?_, ?_, ?_⟩
  · show (if !true || !true then waiters else alSet waiters mid w).lookup mid = some w
    simpa using alSet_lookup_self waiters mid w
  · intro hnd
    exact alDelete_lookup_self waiters mid hnd
  · intro h
    rw [handleReply_keeps_waiters threads users waiters ev hb]
    exact h

/-- Witness for the amended C1: with one waiter stored for `m0`, the TTL
fire removes it, while a matching reply leaves it in place and a repeat
delivery happens. -/
theorem claim_C1_amended_not_single_shot_witness :
    (waiterTTLFire [("m0", ({ author := "u1", name := "ping" } : Waiter))] "m0").lookup "m0" =
      none ∧
    (handleReply [] []
        (handleReply [] [] [("m0", ({ author := "u1", name := "ping" } : Waiter))]
          { threadID := "t1", messageID := "m3", senderID := "u1", messageReply := some "m0" }
          .ok).waiters
        { threadID := "t1", messageID := "m3", senderID := "u1", messageReply := some "m0" }
        .ok).invoked = true :=
  ⟨(claim_C1_amended_not_single_shot [] [] [("m0", { author := "u1", name := "ping" })]
      { threadID := "t1", messageID := "m3", senderID := "u1", messageReply := some "m0" }
      { threadID := "t1", messageID := "m0", senderID := "u1", userID := "u1" }
      .ok "m0" { author := "u1", name := "ping" }).2.2.2.1 (by decide),
    (claim_C1_amended_not_single_shot [] [] [("m0", { author := "u1", name := "ping" })]
      { threadID := "t1", messageID := "m3", senderID := "u1", messageReply := some "m0" }
      { threadID := "t1", messageID := "m0", senderID := "u1", userID := "u1" }
      .ok "m0" { author := "u1", name := "ping" }).2.2.2.2 (by decide)⟩

/-! ## Claim C3: error conversion in the dispatcher -/

/-- C3 counterexample: an async handler whose promise rejects is invoked,
yet no localized error reply is produced — the rejection escapes the
dispatcher's `try/catch` as an unhandled promise rejection. -/
theorem claim_C3_counterexample :
    (handleCommand
        { cfg := {}, plugins := { commands := ["ping"], commandsConfig := [("ping", {})] } }
        { threadID := "t1", messageID := "m1", senderID := "u1", body := "/ping" }
        .rejectAsync).invoked = some "ping" ∧
    (handleCommand
        { cfg := {}, plugins := { commands := ["ping"], commandsConfig := [("ping", {})] } }
        { threadID := "t1", messageID := "m1", senderID := "u1", body := "/ping" }
        .rejectAsync).errorReplySent = false ∧
    (handleCommand
        { cfg := {}, plugins := { commands := ["ping"], commandsConfig := [("ping", {})] } }
        { threadID := "t1", messageID := "m1", senderID := "u1", body := "/ping" }
        .rejectAsync).unhandledRejection = true := by
  decide

/-- C3 amended: in the command, reply and reaction branches a synchronous
throw from the handler is caught and converted into the localized error
reply (and no rejection escapes), but a rejection from an async handler is
not caught: no error reply is sent, and the rejection escapes the
`try/catch` exactly when the handler was invoked. -/
theorem claim_C3_amended_sync_only (st : DispatchState) (ev : CmdEvent)
    (threads : List (String × ThreadRecord)) (users : List (String × UserRecord))
    (waiters : List (String × Waiter)) (rev : ReplyEvent) (xev : ReactEvent) :
    ((handleCommand st ev .throwSync).invoked.isSome = true →
      (handleCommand st ev .throwSync).errorReplySent = true) ∧
    (handleCommand st ev .throwSync).unhandledRejection = false ∧
    (handleCommand st ev .rejectAsync).errorReplySent = false ∧
    ((handleCommand st ev .rejectAsync).unhandledRejection = true ↔
      (handleCommand st ev .rejectAsync).invoked.isSome = true) ∧
    ((handleReply threads users waiters rev .throwSync).invoked = true →
      (handleReply threads users waiters rev .throwSync).errorReplySent = true) ∧
    (handleReply threads users waiters rev .throwSync).unhandledRejection = false ∧
    (handleReply threads users waiters rev .rejectAsync).errorReplySent = false ∧
    ((handleReply threads users waiters rev .rejectAsync).unhandledRejection = true ↔
      (handleReply threads users waiters rev .rejectAsync).invoked = true) ∧
    ((handleReaction threads users waiters xev .throwSync).invoked = true →
      (handleReaction threads users waiters xev .throwSync).errorReplySent = true) ∧
    (handleReaction threads users waiters xev .throwSync).unhandledRejection = false ∧
    (handleReaction threads users waiters xev .rejectAsync).errorReplySent = false ∧
    ((handleReaction threads users waiters xev .rejectAsync).unhandledRejection = true ↔
      (handleReaction threads users waiters xev .rejectAsync).invoked = true) := by
  refine ⟨?_, ?_, ?_, ?_, ?_, ?_, ?_, ?_, ?_, ?_, ?_, ?_⟩
  · rcases handleCommand_cases st ev .throwSync with h | h | h | h | ⟨n, _, h⟩ <;>
      rw [h] <;> simp [noOutput]
  · rcases handleCommand_cases st ev .throwSync with h | h | h | h | ⟨n, _, h⟩ <;>
      rw [h] <;> simp [noOutput]
  · rcases handleCommand_cases st ev .rejectAsync with h | h | h | h | ⟨n, _, h⟩ <;>
      rw [h] <;> simp [noOutput]
  · rcases handleCommand_cases st ev .rejectAsync with h | h | h | h | ⟨n, _, h⟩ <;>
      rw [h] <;> simp [noOutput]
  · rcases handleReply_cases threads users waiters rev .throwSync with h | h <;>
      rw [h] <;> simp
  · rcases handleReply_cases threads users waiters rev .throwSync with h | h <;>
      rw [h] <;> simp
  · rcases handleReply_cases threads users waiters rev .rejectAsync with h | h <;>
      rw [h] <;> simp
  · rcases handleReply_cases threads users waiters rev .rejectAsync with h | h <;>
      rw [h] <;> simp
  · rcases handleReaction_cases threads users waiters xev .throwSync with h | h <;>
      rw [h] <;> simp
  · rcases handleReaction_cases threads users waiters xev .throwSync with h | h <;>
      rw [h] <;> simp
  · rcases handleReaction_cases threads users waiters xev .rejectAsync with h | h <;>
      rw [h] <;> simp
  · rcases handleReaction_cases threads users waiters xev .rejectAsync with h | h <;>
      rw [h] <;> simp

/-- Witness for the amended C3: on a concrete dispatch a synchronous throw
draws the error reply, while an async rejection draws none. -/
theorem claim_C3_amended_sync_only_witness :
    (handleCommand
        { cfg := {}, plugins := { commands := ["echo"], commandsConfig := [("echo", {})] } }
        { threadID := "t2", messageID := "m5", senderID := "u2", body := "/echo hi" }
        .throwSync).errorReplySent = true ∧
    (handleCommand
        { cfg := {}, plugins := { commands := ["echo"], commandsConfig := [("echo", {})] } }
        { threadID := "t2", messageID := "m5", senderID := "u2", body := "/echo hi" }
        .rejectAsync).errorReplySent = false :=
  ⟨(claim_C3_amended_sync_only
      { cfg := {}, plugins := { commands := ["echo"], commandsConfig := [("echo", {})] } }
      { threadID := "t2", messageID := "m5", senderID := "u2", body := "/echo hi" }
      [] [] [] { threadID := "t2", messageID := "m5", senderID := "u2" }
      { threadID := "t2", messageID := "m5", senderID := "u2", userID := "u2" }).1 (by decide),
    (claim_C3_amended_sync_only
      { cfg := {}, plugins := { commands := ["echo"], commandsConfig := [("echo", {})] } }
      { threadID := "t2", messageID := "m5", senderID := "u2", body := "/echo hi" }
      [] [] [] { threadID := "t2", messageID := "m5", senderID := "u2" }
      { threadID := "t2", messageID := "m5", senderID := "u2", userID := "u2" }).2.2.1⟩

/-! ## Claim C7: ban check before any handler -/

/-- C7 counterexample: `handleEvent` consults no ban data at all, so a
log:subscribe event from a banned thread (here: a thread record with
`banned: true`, which `checkBanStatus` flags) still dispatches the
`subcribe` event handler. -/
theorem claim_C7_counterexample :
    checkBanStatus { thread := some { banned := some true } } "u1" = true ∧
    handleEvent ["subcribe"]
      { type := "event", logMessageType := "log:subscribe", participantIDs := ["u1"] } =
      some "subcribe" := by
  decide

/-- C7 amended: in the command, reply, reaction and generic-message
branches the ban check runs before any handler — a banned actor's event
invokes nothing and produces no output; the thread-log branch
(`handleEvent`) performs no ban check. -/
theorem claim_C7_amended_ban_first (st : DispatchState) (ev : CmdEvent) (hb : HandlerBehavior)
    (threads : List (String × ThreadRecord)) (users : List (String × UserRecord))
    (waiters : List (String × Waiter)) (rev : ReplyEvent) (xev : ReactEvent)
    (onMessage : List String) (mev : CmdEvent) :
    (dispatchBanned st ev = true → handleCommand st ev hb = noOutput st) ∧
    (checkBanStatus
        { user := users.lookup rev.senderID,
          thread := if rev.isGroup then threads.lookup rev.threadID else none }
        rev.senderID = true →
      (handleReply threads users waiters rev hb).invoked = false) ∧
    (checkBanStatus
        { user := users.lookup xev.userID,
          thread :=
            if xev.senderID != xev.threadID && xev.userID != xev.threadID then
              threads.lookup xev.threadID
            else none }
        xev.userID = true →
      (handleReaction threads users waiters xev hb).invoked = false) ∧
    (checkBanStatus
        { user := users.lookup mev.senderID,
          thread := if mev.isGroup then threads.lookup mev.threadID else none }
        mev.senderID = true →
      handleMessage threads users onMessage mev = []) := by
  refine ⟨?_, ?_, ?_, ?_⟩
  · intro h
    unfold handleCommand
    rw [if_pos h]
  · intro h
    unfold handleReply
    dsimp only
    split
    · rfl
    · split
      · rfl
      · rw [if_pos h]
  · intro h
    unfold handleReaction
    dsimp only
    split
    · rfl
    · rw [if_pos h]
  · intro h
    unfold handleMessage
    dsimp only
    rw [if_pos h]

/-- Witness for the amended C7: a banned sender's command is a silent
no-op, and a banned sender's matching reply invokes no waiter callback. -/
theorem claim_C7_amended_ban_first_witness :
    handleCommand
      { cfg := {}, users := [("u1", { banned := some true })],
        plugins := { commands := ["ping"], commandsConfig := [("ping", {})] } }
      { threadID := "t1", messageID := "m1", senderID := "u1", body := "/ping" } .ok =
      noOutput
        { cfg := {}, users := [("u1", { banned := some true })],
          plugins := { commands := ["ping"], commandsConfig := [("ping", {})] } } ∧
    (handleReply [] [("u1", { banned := some true })]
        [("m0", { author := "u1", name := "ping" })]
        { threadID := "t1", messageID := "m2", senderID := "u1", messageReply := some "m0" }
        .ok).invoked = false :=
  ⟨(claim_C7_amended_ban_first
      { cfg := {}, users := [("u1", { banned := some true })],
        plugins := { commands := ["ping"], commandsConfig := [("ping", {})] } }
      { threadID := "t1", messageID := "m1", senderID := "u1", body := "/ping" } .ok
      [] [("u1", { banned := some true })] [("m0", { author := "u1", name := "ping" })]
      { threadID := "t1", messageID := "m2", senderID := "u1", messageReply := some "m0" }
      { threadID := "t1", messageID := "m2", senderID := "u1", userID := "u1" }
      [] { threadID := "t1", messageID := "m1", senderID := "u1" }).1 (by decide),
    (claim_C7_amended_ban_first
      { cfg := {}, users := [("u1", { banned := some true })],
        plugins := { commands := ["ping"], commandsConfig := [("ping", {})] } }
      { threadID := "t1", messageID := "m1", senderID := "u1", body := "/ping" } .ok
      [] [("u1", { banned := some true })] [("m0", { author := "u1", name := "ping" })]
      { threadID := "t1", messageID := "m2", senderID := "u1", messageReply := some "m0" }
      { threadID := "t1", messageID := "m2", senderID := "u1", userID := "u1" }
      [] { threadID := "t1", messageID := "m1", senderID := "u1" }).2.1 (by decide)⟩

/-! ## Claim C5: when the cooldown is recorded -/

/-- C5 counterexample: a command whose handler throws synchronously still
consumes the user's cooldown — `handleCommand` records the timestamp
before invoking the handler, so the failed invocation leaves the
`(user, command)` cooldown set to `Date.now()`. -/
theorem claim_C5_counterexample :
    (handleCommand
        { cfg := {}, plugins := { commands := ["ping"], commandsConfig := [("ping", {})] },
          now := 99000 }
        { threadID := "t1", messageID := "m1", senderID := "u1", body := "/ping" }
        .throwSync).errorReplySent = true ∧
    (handleCommand
        { cfg := {}, plugins := { commands := ["ping"], commandsConfig := [("ping", {})] },
          now := 99000 }
        { threadID := "t1", messageID := "m1", senderID := "u1", body := "/ping" }
        .throwSync).cooldowns.lookup "u1" = some [("ping", 99000)] := by
  decide

/-- C5 amended: the ready check itself never modifies the cooldown map
(no invocation → cooldowns unchanged); `CommandService.execute` sets the
cooldown only after the awaited handler resolves (a failing handler — or
any earlier gate — leaves the map unchanged); but `handleCommand` records
the cooldown immediately before invoking the handler, so there a failing
or rejected handler still consumes the user's cooldown. -/
theorem claim_C5_amended_cooldown_timing (st : DispatchState) (ev : CmdEvent)
    (hb : HandlerBehavior) (n : String) (cfgMain : Config) (r : Registry)
    (cds : List (String × List (String × Int))) (now : Int)
    (commandName senderID : String) (hf : Bool) :
    ((handleCommand st ev hb).invoked = none →
      (handleCommand st ev hb).cooldowns = st.cooldowns) ∧
    ((handleCommand st ev hb).invoked = some n →
      (handleCommand st ev hb).cooldowns = recordCooldown st ev n) ∧
    (svcExecute cfgMain r cds now commandName senderID true).cooldowns = cds ∧
    ((svcExecute cfgMain r cds now commandName senderID hf).outcome ≠ .success →
      (svcExecute cfgMain r cds now commandName senderID hf).cooldowns = cds) := by
  refine ⟨?_, ?_, ?_, ?_⟩
  · intro h
    rcases handleCommand_cases st ev hb with hc | hc | hc | hc | ⟨m, _, hc⟩ <;>
        rw [hc] <;> rw [hc] at h <;> simp [noOutput] at h ⊢
  · intro h
    rcases handleCommand_cases st ev hb with hc | hc | hc | hc | ⟨m, _, hc⟩ <;>
        rw [hc] <;> rw [hc] at h <;> simp [noOutput] at h ⊢
    rw [h]
  · unfold svcExecute
    repeat' split
    all_goals first | rfl | simp_all
  · intro h
    unfold svcExecute at h ⊢
    repeat' split
    all_goals first | rfl | simp_all

/-- Witness for the amended C5: a cooldown-blocked invocation leaves the
map unchanged, and `svcExecute` with a failing handler does too. -/
theorem claim_C5_amended_cooldown_timing_witness :
    (handleCommand
        { cfg := {}, plugins := { commands := ["ping"], commandsConfig := [("ping", {})] },
          cooldowns := [("u1", [("ping", 98000)])], now := 99000 }
        { threadID := "t1", messageID := "m1", senderID := "u1", body := "/ping" }
        .ok).cooldowns = [("u1", [("ping", 98000)])] ∧
    (svcExecute {} { commands := ["ping"], configs := [("ping", { name := "ping" })] }
        [] 0 "ping" "u1" true).cooldowns = [] :=
  ⟨(claim_C5_amended_cooldown_timing
      { cfg := {}, plugins := { commands := ["ping"], commandsConfig := [("ping", {})] },
        cooldowns := [("u1", [("ping", 98000)])], now := 99000 }
      { threadID := "t1", messageID := "m1", senderID := "u1", body := "/ping" }
      .ok "ping" {} { commands := ["ping"], configs := [("ping", { name := "ping" })] }
      [] 0 "ping" "u1" true).1 (by decide),
    (claim_C5_amended_cooldown_timing
      { cfg := {}, plugins := { commands := ["ping"], commandsConfig := [("ping", {})] },
        cooldowns := [("u1", [("ping", 98000)])], now := 99000 }
      { threadID := "t1", messageID := "m1", senderID := "u1", body := "/ping" }
      .ok "ping" {} { commands := ["ping"], configs := [("ping", { name := "ping" })] }
      [] 0 "ping" "u1" true).2.2.1⟩

/-! ## Claim C8: permission resolution order -/

/-- Step 4/5 of the resolution cascade: the user's stored global
`permissions` field, else `['user']`. -/
def fallbackUser (users : List (String × UserRecord)) (userID : String) : List String :=
  match (users.lookup userID).bind (·.permissions) with
  | some ps => ps
  | none => ["user"]

/-- The resolution order exactly as claim C8 words it: global ABSOLUTES
or ADMINS member → {admin, supper_admin}; else thread's stored adminIDs →
{thread_admin, admin}; else a stored per-user override, returned
verbatim; else the user's stored permissions field; else {user}. -/
def specResolvePermissions (cfg : Config) (threads : List (String × ThreadRecord))
    (users : List (String × UserRecord)) (userID threadID : String) : List String :=
  if memberOf cfg.ABSOLUTES userID || memberOf cfg.ADMINS userID then
    ["admin", "supper_admin"]
  else if memberOf (((threads.lookup threadID).bind (·.info)).bind (·.adminIDs)) userID then
    ["thread_admin", "admin"]
  else
    match (threads.lookup threadID).bind (fun td => td.permissions.lookup userID) with
    | some ps => ps
    | none => fallbackUser users userID

/-- C8 counterexample: a user listed only in `MODERATORS` resolves to
`['admin','supper_admin']` where the claimed order yields `['user']`; and
a stored override `['user','mod']` is not returned verbatim — the code
skips any override whose first tag is `'user'`. -/
theorem claim_C8_counterexample :
    getUserPermissions { config := some { MODERATORS := some ["u9"] } } "u9" "t1" =
      ["admin", "supper_admin"] ∧
    specResolvePermissions { MODERATORS := some ["u9"] } [] [] "u9" "t1" = ["user"] ∧
    getUserPermissions
      { config := some {}, threads := [("t1", { permissions := [("u9", ["user", "mod"])] })] }
      "u9" "t1" = ["user"] ∧
    specResolvePermissions {} [("t1", { permissions := [("u9", ["user", "mod"])] })] []
      "u9" "t1" = ["user", "mod"] := by
  decide

/-- The resolution order the code actually implements: step 1 also grants
`{admin, supper_admin}` to `MODERATORS` members; steps 2–3 require a
non-empty `threadID`; and the stored per-thread override is used only
when it is non-empty and its first tag is not `'user'`. -/
def specResolvePermissionsAmended (cfg : Config) (threads : List (String × ThreadRecord))
    (users : List (String × UserRecord)) (userID threadID : String) : List String :=
  if memberOf cfg.ABSOLUTES userID || memberOf cfg.ADMINS userID ||
      memberOf cfg.MODERATORS userID then
    ["admin", "supper_admin"]
  else if threadID ≠ "" ∧
      memberOf (((threads.lookup threadID).bind (·.info)).bind (·.adminIDs)) userID = true then
    ["thread_admin", "admin"]
  else
    match
      (if threadID = "" then none
        else (threads.lookup threadID).bind fun td => td.permissions.lookup userID) with
    | some ps =>
      if 0 < ps.length && ps.head? != some "user" then ps
      else fallbackUser users userID
    | none => fallbackUser users userID

/-- C8 amended: with the config loaded, `getUserPermissions` computes
exactly the amended first-match cascade. -/
theorem claim_C8_amended_resolution_order (cfg : Config) (fc : Option Config)
    (threads : List (String × ThreadRecord)) (users : List (String × UserRecord))
    (userID threadID : String) :
    getUserPermissions
        { config := some cfg, fileConfig := fc, threads := threads, users := users }
        userID threadID =
      specResolvePermissionsAmended cfg threads users userID threadID := by
  unfold getUserPermissions specResolvePermissionsAmended fallbackUser
  dsimp only
  cases hA : memberOf cfg.ADMINS userID <;>
    cases hM : memberOf cfg.MODERATORS userID <;>
      cases hB : memberOf cfg.ABSOLUTES userID <;>
        simp only [hA, hM, hB, Bool.false_or, Bool.or_false, Bool.true_or, Bool.or_true] <;>
        try rfl
  by_cases ht : threadID = ""
  · simp [ht]
  · cases hth : threads.lookup threadID with
    | none => simp [ht, hth, getUserPermissionsFromDB, memberOf]
    | some td =>
      cases hAdm : memberOf (td.info.bind (·.adminIDs)) userID with
      | true => simp [ht, hth, hAdm]
      | false =>
        cases hp : td.permissions.lookup userID with
        | none => simp [ht, hth, hAdm, hp, getUserPermissionsFromDB]
        | some ps =>
          by_cases hc : (0 < ps.length && ps.head? != some "user") = true
          · simp [ht, hth, hAdm, hp, getUserPermissionsFromDB, hc]
          · simp [ht, hth, hAdm, hp, getUserPermissionsFromDB, hc]

/-! ## Claim C9: duplicate names in the registry -/

theorem alSet_lookup_ne {α β : Type} [BEq α] [LawfulBEq α] (m : List (α × β)) (k : α) (v : β)
    (k' : α) (h : k' ≠ k) : (alSet m k v).lookup k' = m.lookup k' := by
  induction m with
  | nil =>
    rw [show alSet ([] : List (α × β)) k v = [(k, v)] from rfl, List.lookup_cons,
      show (k' == k) = false from beq_eq_false_iff_ne.mpr h]
  | cons p rest ih =>
    obtain ⟨a, b⟩ := p
    by_cases hak : a = k
    · subst hak
      rw [show alSet ((a, b) :: rest) a v = (a, v) :: rest from by simp [alSet],
        List.lookup_cons, List.lookup_cons,
        show (k' == a) = false from beq_eq_false_iff_ne.mpr h]
    · rw [show alSet ((a, b) :: rest) k v = (a, b) :: alSet rest k v from by
          simp [alSet, hak], List.lookup_cons, List.lookup_cons]
      cases hb : (k' == a)
      · exact ih
      · rfl

theorem foldl_alSet_lookup_of_not_mem {α β : Type} [BEq α] [LawfulBEq α] (l : List α)
    (m : List (α × β)) (v : β) (a : α) (ha : a ∉ l) :
    (l.foldl (fun acc x => alSet acc x v) m).lookup a = m.lookup a := by
  induction l generalizing m with
  | nil => rfl
  | cons x xs ih =>
    simp only [List.mem_cons, not_or] at ha
    simp only [List.foldl_cons]
    rw [ih (alSet m x v) ha.2, alSet_lookup_ne m x v a ha.1]

theorem foldl_alSet_lookup_of_mem {α β : Type} [BEq α] [LawfulBEq α] (l : List α)
    (m : List (α × β)) (v : β) (a : α) (ha : a ∈ l) :
    (l.foldl (fun acc x => alSet acc x v) m).lookup a = some v := by
  induction l generalizing m with
  | nil => cases ha
  | cons x xs ih =>
    simp only [List.foldl_cons]
    by_cases hx : a ∈ xs
    · exact ih (alSet m x v) hx
    · have hax : a = x := by
        rcases List.mem_cons.mp ha with h | h
        · exact h
        · exact absurd h hx
      subst hax
      rw [foldl_alSet_lookup_of_not_mem xs (alSet m a v) v a hx, alSet_lookup_self]

theorem insertName_contains_self (l : List String) (n : String) :
    (insertName l n).contains n = true := by
  unfold insertName
  by_cases h : l.contains n = true
  · rw [if_pos h]
    exact h
  · rw [if_neg h]
    exact contains_iff_mem.mpr (List.mem_append_right l (List.mem_singleton_self n))

/-- C9 counterexample: the repository ships a `ping` command and a `test`
command with alias `"ping"`.  Loading both raises no error and changes
the registry — afterwards `"ping"` is simultaneously a registered command
name and a registered alias of the different command `"test"`, violating
the claimed invariant. -/
theorem claim_C9_counterexample :
    (loadCommandRegister
        (loadCommandRegister {}
          { name := "ping", aliases := some ["p"], permissions := some [0], cooldown := some 2 })
        { name := "test", aliases := some ["ping"], permissions := some [0],
          cooldown := some 3 }).commands.contains "ping" = true ∧
    (loadCommandRegister
        (loadCommandRegister {}
          { name := "ping", aliases := some ["p"], permissions := some [0], cooldown := some 2 })
        { name := "test", aliases := some ["ping"], permissions := some [0],
          cooldown := some 3 }).aliases.lookup "ping" = some "test" ∧
    loadCommandRegister
        (loadCommandRegister {}
          { name := "ping", aliases := some ["p"], permissions := some [0], cooldown := some 2 })
        { name := "test", aliases := some ["ping"], permissions := some [0],
          cooldown := some 3 } ≠
      loadCommandRegister {}
        { name := "ping", aliases := some ["p"], permissions := some [0], cooldown := some 2 } := by
  decide

/-- C9 amended: `loadCommand` performs no duplicate check — any config
with a non-empty name registers (its name enters the command map and
every alias is pointed at it, overwriting colliding alias entries), and
`resolveAlias` gives a direct command name precedence over an alias entry
of the same string. -/
theorem claim_C9_amended_no_duplicate_check (r : Registry) (config : SvcConfig)
    (h : config.name ≠ "") :
    (loadCommandRegister r config).commands.contains config.name = true ∧
    (∀ a ∈ config.aliases.getD [],
      (loadCommandRegister r config).aliases.lookup a = some config.name) ∧
    (∀ r' : Registry, ∀ m : String,
      r'.commands.contains m = true → resolveAlias r' m = some m) := by
  refine ⟨?_, ?_, ?_⟩
  · unfold loadCommandRegister
    rw [if_neg h]
    exact insertName_contains_self r.commands config.name
  · intro a ha
    unfold loadCommandRegister
    rw [if_neg h]
    simp only [normalizeSvcConfig, Option.getD_some]
    exact foldl_alSet_lookup_of_mem (config.aliases.getD []) r.aliases config.name a ha
  · intro r' m hm
    unfold resolveAlias
    rw [if_pos hm]

/-- Witness for the amended C9: loading `test` with alias `ping` over the
existing `ping` command succeeds, points the alias at `test`, and
`resolveAlias "ping"` still returns the `ping` command itself. -/
theorem claim_C9_amended_no_duplicate_check_witness :
    (loadCommandRegister {} { name := "test", aliases := some ["ping"] }).commands.contains
      "test" = true ∧
    (loadCommandRegister {} { name := "test", aliases := some ["ping"] }).aliases.lookup
      "ping" = some "test" ∧
    resolveAlias
      (loadCommandRegister (loadCommandRegister {} { name := "ping", aliases := some ["p"] })
        { name := "test", aliases := some ["ping"] }) "ping" = some "ping" :=
  ⟨(claim_C9_amended_no_duplicate_check {} { name := "test", aliases := some ["ping"] }
      (by decide)).1,
    (claim_C9_amended_no_duplicate_check {} { name := "test", aliases := some ["ping"] }
      (by decide)).2.1 "ping" (by decide),
    (claim_C9_amended_no_duplicate_check {} { name := "test", aliases := some ["ping"] }
      (by decide)).2.2
      (loadCommandRegister (loadCommandRegister {} { name := "ping", aliases := some ["p"] })
        { name := "test", aliases := some ["ping"] }) "ping" (by decide)⟩

/-! ## Claim C10: cooldown 0 -/

/-- C10: `checkCooldown` itself does treat a cooldown of 0 as always
ready (even with a stored future expiry), but `loadCommand` rewrites a
configured cooldown of `0` to the default `3` (`!config.cooldown` is true
for `0`), and `handleCommand` computes `commandInfo.cooldown || 3`, so a
command configured with cooldown 0 is not ready one second after an
invocation: the dispatcher reacts with the clock emoji and invokes
nothing. -/
theorem claim_C10_cooldown_zero_clobbered :
    svcCheckCooldown [("x", [("u1", 999999)])] 0 "x" "u1" { name := "x", cooldown := some 0 } =
      true ∧
    ((loadCommandRegister {} { name := "x", cooldown := some 0 }).configs.lookup "x").map
      (·.cooldown) = some (some 3) ∧
    dispatchReady
      { cfg := {}, cooldowns := [("u1", [("x", 1000)])], now := 2000 }
      { threadID := "t1", messageID := "m1", senderID := "u1" } "x" { cooldown := some 0 } =
      false ∧
    (handleCommand
        { cfg := {},
          plugins := { commands := ["x"], commandsConfig := [("x", { cooldown := some 0 })] },
          cooldowns := [("u1", [("x", 1000)])], now := 2000 }
        { threadID := "t1", messageID := "m1", senderID := "u1", body := "/x" }
        .ok).clockReacted = true ∧
    (handleCommand
        { cfg := {},
          plugins := { commands := ["x"], commandsConfig := [("x", { cooldown := some 0 })] },
          cooldowns := [("u1", [("x", 1000)])], now := 2000 }
        { threadID := "t1", messageID := "m1", senderID := "u1", body := "/x" }
        .ok).invoked = none := by
  decide

end Alphabot
